import Mathlib

/-!
Shallow embedding of the Gamified Digital Literacy backend
(src/main.py, src/schemas.py).

The document store is modelled as association lists keyed by id strings
(MongoDB ObjectId hex strings).  `find_one` is `List.find?` on the list in
insertion order, `update_one` updates the first matching entry, and insertion
appends at the end.  Machine integers are `Int` with Python floor division
modelled by `Int.fdiv`.  The Python float average `sum(scores)/len(scores)`
is modelled by the exact rational: scores are integers in [0,100] and the
list has length at most 3, so every comparison against the thresholds 50 and
80 agrees between the float and the rational (equality can only occur at
exactly representable values, and otherwise the gap to the threshold is at
least 1/3, far above the rounding error).

Fallible endpoints return `Option`/`Except`: pydantic validation failure on
`POST /progress` is `none`; `GET /recommendations/{id}` returns
`Except RecError RecOutcome`.
-/

/-- schemas.py `Child`: a child profile document. -/
structure Child where
  name : String
  age : Int
  avatar : Option String
  mode : String
  points : Int
  level : Int
  stars : Int
  badges : List String
  deriving Repr, DecidableEq

/-- schemas.py `Lesson`. -/
structure Lesson where
  title : String
  topic : String
  level : String
  description : Option String
  points : Int
  deriving Repr, DecidableEq

/-- schemas.py `Game`. -/
structure Game where
  title : String
  key : String
  description : Option String
  points : Int
  deriving Repr, DecidableEq

/-- schemas.py `Mission`. -/
structure Mission where
  title : String
  description : Option String
  target_type : String
  target_count : Int
  reward : String
  reward_value : Int
  deriving Repr, DecidableEq

/-- schemas.py `Progress`: one recorded content interaction. `completed_at`
is a timestamp modelled as `Nat`. -/
structure ProgressRec where
  child_id : String
  item_type : String
  item_id : String
  score : Int
  stars_earned : Int
  points_earned : Int
  completed_at : Nat
  deriving Repr, DecidableEq

/-- schemas.py `Recommendation` (ephemeral, not persisted). -/
structure Recommendation where
  child_id : String
  recommended_type : String
  ref_id : Option String
  title : Option String
  reason : String
  deriving Repr, DecidableEq

/-- The document store: one association list per collection, keyed by the
document's id string. -/
structure Store where
  children : List (String × Child)
  progress : List (String × ProgressRec)
  lessons : List (String × Lesson)
  games : List (String × Game)
  missions : List (String × Mission)
  deriving Repr, DecidableEq

def emptyStore : Store := ⟨[], [], [], [], []⟩

/-- main.py `ChildCreate` request body. -/
structure ChildCreate where
  name : String
  age : Int
  avatar : Option String
  mode : String
  deriving Repr, DecidableEq

/-- main.py `ProgressCreate` request body. -/
structure ProgressCreate where
  child_id : String
  item_type : String
  item_id : String
  score : Int
  deriving Repr, DecidableEq

/-- `bson.ObjectId(s)` succeeds on a string exactly when it is 24 hex
characters. -/
def isHexChar (c : Char) : Bool :=
  c.isDigit || (('a' ≤ c) && (c ≤ 'f')) || (('A' ≤ c) && (c ≤ 'F'))

def isValidOid (s : String) : Bool :=
  s.length == 24 && s.toList.all isHexChar

/-- `update_one({"_id": cid}, ...)`: apply `f` to the first entry whose key
is `cid`, leave everything else unchanged. -/
def updateFirst (cid : String) (f : Child → Child) :
    List (String × Child) → List (String × Child)
  | [] => []
  | kv :: rest =>
    if kv.1 == cid then (kv.1, f kv.2) :: rest else kv :: updateFirst cid f rest

/-- main.py line 115: `new_level = 1 + new_points // 200`. -/
def level_of_points (pts : Int) : Int := 1 + pts.fdiv 200

/-- main.py line 107: `stars_earned=min(3, max(0, payload.score // 34))`. -/
def stars_of_score (s : Int) : Int := min 3 (max 0 (s.fdiv 34))

/-- main.py line 107: `points_earned=max(0, payload.score)`. -/
def points_of_score (s : Int) : Int := max 0 s

/-- Pydantic validation performed by constructing `Progress(...)`
(schemas.py lines 65-72): `item_type` is `Literal["lesson","game"]` and
`score` satisfies `ge=0, le=100`.  The derived fields always pass their own
bounds. -/
def validProgressCreate (p : ProgressCreate) : Bool :=
  (p.item_type == "lesson" || p.item_type == "game")
    && decide (0 ≤ p.score) && decide (p.score ≤ 100)

/-- The `Progress` document built at main.py lines 106-107. -/
def mkProgress (p : ProgressCreate) (now : Nat) : ProgressRec :=
  { child_id := p.child_id
    item_type := p.item_type
    item_id := p.item_id
    score := p.score
    stars_earned := stars_of_score p.score
    points_earned := points_of_score p.score
    completed_at := now }

/-- main.py lines 104-119, `POST /progress` (`add_progress`).  `progId` is
the id MongoDB assigns to the inserted record and `now` the current
timestamp.  Returns `none` when pydantic validation rejects the payload;
otherwise the new store and the returned record id.  The child points/level
update is attempted inside `try/except: pass`, so a malformed id or a
missing child leaves the store (beyond the inserted record) unchanged. -/
def add_progress (st : Store) (p : ProgressCreate) (progId : String)
    (now : Nat) : Option (Store × String) :=
  if validProgressCreate p then
    let prog := mkProgress p now
    let st1 : Store := { st with progress := st.progress ++ [(progId, prog)] }
    let st2 : Store :=
      if isValidOid p.child_id then
        match st1.children.find? (fun kv => kv.1 == p.child_id) with
        | some kv =>
          let newPoints := kv.2.points + prog.points_earned
          let newLevel := level_of_points newPoints
          { st1 with
            children := updateFirst p.child_id
              (fun c => { c with points := newPoints, level := newLevel })
              st1.children }
        | none => st1
      else st1
    some (st2, progId)
  else none

/-- Pydantic validation of `Child(**payload)` (schemas.py lines 12-20):
`age` in [3,10] and `mode` a literal. -/
def validChildCreate (p : ChildCreate) : Bool :=
  decide (3 ≤ p.age) && decide (p.age ≤ 10)
    && (p.mode == "child" || p.mode == "guest")

/-- main.py lines 84-88, `POST /children`: build the child with the schema
defaults (points 0, level 1, stars 0, badges []) and insert it under the id
`cid` assigned by MongoDB. -/
def create_child (st : Store) (p : ChildCreate) (cid : String) :
    Option (Store × String) :=
  if validChildCreate p then
    let child : Child :=
      { name := p.name, age := p.age, avatar := p.avatar, mode := p.mode
        points := 0, level := 1, stars := 0, badges := [] }
    some ({ st with children := st.children ++ [(cid, child)] }, cid)
  else none

/-! ## Recommendation engine (main.py lines 122-163) -/

/-- Errors surfaced by `GET /recommendations/{child_id}`:
`HTTPException(400, "Invalid child id")` and
`HTTPException(404, "Child not found")`. -/
inductive RecError where
  | invalidId
  | notFound
  deriving Repr, DecidableEq

/-- A successful response: either a `Recommendation` body or the
`{"message": "No recommendation available yet"}` sentinel. -/
inductive RecOutcome where
  | found (r : Recommendation)
  | noneAvailable
  deriving Repr, DecidableEq

/-- Insert `p` into a list already sorted by `completed_at` descending. -/
def insertByTimeDesc (p : ProgressRec) :
    List ProgressRec → List ProgressRec
  | [] => [p]
  | q :: qs =>
    if q.completed_at ≤ p.completed_at then p :: q :: qs
    else q :: insertByTimeDesc p qs

/-- `sort("completed_at", -1)`: sort by completion time, newest first. -/
def sortByTimeDesc : List ProgressRec → List ProgressRec
  | [] => []
  | p :: ps => insertByTimeDesc p (sortByTimeDesc ps)

/-- main.py lines 137-138: fetch the up-to-3 most recent progress records of
the child and project out their scores. -/
def recentScores (st : Store) (child_id : String) : List Int :=
  ((sortByTimeDesc ((st.progress.map Prod.snd).filter
      (fun pr => pr.child_id == child_id))).take 3).map (·.score)

/-- main.py line 139: `avg = sum(scores) / len(scores) if scores else 0`,
as an exact rational. -/
def avgOf (scores : List Int) : ℚ :=
  if scores.isEmpty then 0
  else ((scores.sum : ℚ) / (scores.length : ℚ))

/-- main.py line 146: `find_one({"level": "easy", "topic": "safety"}) or
find_one({"level": "easy"})`, projected to `(id, title)`. -/
def safetyLookup (st : Store) : Option (String × String) :=
  (Option.orElse
      (st.lessons.find? (fun kv => kv.2.level == "easy" && kv.2.topic == "safety"))
      (fun _ => st.lessons.find? (fun kv => kv.2.level == "easy"))).map
    (fun kv => (kv.1, kv.2.title))

/-- main.py line 150: `find_one({"level": "medium"}) or
find_one({"level": "easy"})`, projected to `(id, title)`. -/
def mediumLookup (st : Store) : Option (String × String) :=
  (Option.orElse
      (st.lessons.find? (fun kv => kv.2.level == "medium"))
      (fun _ => st.lessons.find? (fun kv => kv.2.level == "easy"))).map
    (fun kv => (kv.1, kv.2.title))

/-- main.py line 154: `db["game"].find_one({})`, projected to `(id, title)`. -/
def gameLookup (st : Store) : Option (String × String) :=
  st.games.head?.map (fun kv => (kv.1, kv.2.title))

/-- main.py lines 158-163: the shared fallback after every branch — any
mission, else the "no recommendation" sentinel. -/
def fallbackMission (st : Store) (child_id : String) :
    Except RecError RecOutcome :=
  match st.missions.head? with
  | some kv =>
    .ok (.found { child_id := child_id, recommended_type := "mission"
                  ref_id := some kv.1, title := some kv.2.title
                  reason := "General growth mission" })
  | none => .ok .noneAvailable

/-- main.py lines 122-163, `GET /recommendations/{child_id}`. -/
def get_recommendation (st : Store) (child_id : String) :
    Except RecError RecOutcome :=
  if isValidOid child_id then
    match st.children.find? (fun kv => kv.1 == child_id) with
    | none => .error .notFound
    | some _ =>
      let avg := avgOf (recentScores st child_id)
      if avg < 50 then
        match safetyLookup st with
        | some it =>
          .ok (.found { child_id := child_id, recommended_type := "lesson"
                        ref_id := some it.1, title := some it.2
                        reason := "Average score low; reinforce safety basics" })
        | none => fallbackMission st child_id
      else if avg ≤ 80 then
        match mediumLookup st with
        | some it =>
          .ok (.found { child_id := child_id, recommended_type := "lesson"
                        ref_id := some it.1, title := some it.2
                        reason := "Doing well; try a medium challenge" })
        | none => fallbackMission st child_id
      else
        match gameLookup st with
        | some it =>
          .ok (.found { child_id := child_id, recommended_type := "game"
                        ref_id := some it.1, title := some it.2
                        reason := "Great scores; keep it fun with a game" })
        | none => fallbackMission st child_id
  else .error .invalidId

/-! ## Seeding (main.py lines 59-75) -/

/-- main.py lines 64-66: `ensure(coll, doc)` inserts `doc` under id `newId`
only when the collection currently holds no document at all. -/
def ensure {α : Type} (coll : List (String × α)) (newId : String) (doc : α) :
    List (String × α) :=
  if coll.length == 0 then coll ++ [(newId, doc)] else coll

/-- main.py line 68: the easy devices lesson seeded first. -/
def devicesLesson : Lesson :=
  { title := "Understanding Devices", topic := "devices", level := "easy"
    description := some "Identify phone, tablet, computer", points := 10 }

/-- main.py line 69: the easy safety lesson seeded second. -/
def safetyLesson : Lesson :=
  { title := "Safe vs Unsafe", topic := "safety", level := "easy"
    description := some "Spot safe online choices", points := 10 }

/-- main.py line 71: the demo game. -/
def demoGame : Game :=
  { title := "Spot the Safe Choice", key := "safe-choice"
    description := some "Tap the safe option", points := 10 }

/-- main.py line 73: the demo mission. -/
def demoMission : Mission :=
  { title := "Warm-up Day", description := some "Finish 2 lessons today"
    target_type := "lessons", target_count := 2, reward := "stars"
    reward_value := 5 }

/-- main.py lines 59-75, `POST /seed`: the four `ensure` calls in program
order.  The two lesson `ensure`s run sequentially on the same collection, so
the second sees the collection the first may have filled.  `lid1`, `lid2`,
`gid`, `mid` are the ids MongoDB would assign to the respective inserts. -/
def seed_content (st : Store) (lid1 lid2 gid mid : String) : Store :=
  { st with
    lessons := ensure (ensure st.lessons lid1 devicesLesson) lid2 safetyLesson
    games := ensure st.games gid demoGame
    missions := ensure st.missions mid demoMission }

/-! ## Helper lemmas about `updateFirst` and `add_progress` -/

theorem find?_updateFirst (cid : String) (f : Child → Child)
    (l : List (String × Child)) :
    (updateFirst cid f l).find? (fun kv => kv.1 == cid) =
      (l.find? (fun kv => kv.1 == cid)).map (fun kv => (kv.1, f kv.2)) := by
  induction l with
  | nil => rfl
  | cons kv rest ih =>
    cases h : (kv.1 == cid) with
    | true => simp [updateFirst, h, List.find?]
    | false => simp [updateFirst, h, List.find?, ih]

theorem forall₂_pair_refl (R : Child → Child → Prop) (hR : ∀ c, R c c)
    (l : List (String × Child)) :
    List.Forall₂ (fun a b : String × Child => a.1 = b.1 ∧ R a.2 b.2) l l := by
  induction l with
  | nil => exact List.Forall₂.nil
  | cons kv rest ih => exact List.Forall₂.cons ⟨rfl, hR kv.2⟩ ih

theorem forall₂_updateFirst (cid : String) (f : Child → Child)
    (R : Child → Child → Prop) (hR : ∀ c, R c c)
    (l : List (String × Child)) (kv0 : String × Child)
    (hfind : l.find? (fun kv => kv.1 == cid) = some kv0)
    (hf : R kv0.2 (f kv0.2)) :
    List.Forall₂ (fun a b : String × Child => a.1 = b.1 ∧ R a.2 b.2) l
      (updateFirst cid f l) := by
  induction l with
  | nil => simp [List.find?] at hfind
  | cons kv rest ih =>
    cases h : (kv.1 == cid) with
    | true =>
      have hkv : kv = kv0 := by
        have := hfind
        simp [List.find?, h] at this
        exact this
      subst hkv
      simp only [updateFirst, h, if_true, ite_true]
      exact List.Forall₂.cons ⟨rfl, hf⟩ (forall₂_pair_refl R hR rest)
    | false =>
      have hfind' : rest.find? (fun kv => kv.1 == cid) = some kv0 := by
        have := hfind
        simpa [List.find?, h] using this
      simp only [updateFirst, h, Bool.false_eq_true, if_false, ite_false]
      exact List.Forall₂.cons ⟨rfl, hR kv.2⟩ (ih hfind')

/-- When the child id is malformed or unknown, `add_progress` only appends
the progress record. -/
theorem add_progress_skip (st : Store) (p : ProgressCreate) (progId : String)
    (now : Nat) (hv : validProgressCreate p = true)
    (hmiss : isValidOid p.child_id = false ∨
      st.children.find? (fun kv => kv.1 == p.child_id) = none) :
    add_progress st p progId now =
      some ({ st with progress := st.progress ++ [(progId, mkProgress p now)] },
            progId) := by
  unfold add_progress
  rcases hmiss with h | h
  · simp [hv, h]
  · simp [hv, h]

/-- When the child id resolves, `add_progress` appends the record and
updates the owning child's points and level in place. -/
theorem add_progress_update (st : Store) (p : ProgressCreate) (progId : String)
    (now : Nat) (kv0 : String × Child) (hv : validProgressCreate p = true)
    (hoid : isValidOid p.child_id = true)
    (hfind : st.children.find? (fun kv => kv.1 == p.child_id) = some kv0) :
    add_progress st p progId now =
      some ({ st with
              progress := st.progress ++ [(progId, mkProgress p now)],
              children := updateFirst p.child_id
                (fun c => { c with
                  points := kv0.2.points + points_of_score p.score,
                  level := level_of_points
                    (kv0.2.points + points_of_score p.score) })
                st.children },
            progId) := by
  unfold add_progress
  simp [hv, hoid, hfind, mkProgress]

/-! ## Claim theorems -/

/-- C2: for every submitted score s in [0,100] (and a valid item type),
progress recording derives `stars_earned = min 3 (max 0 (s // 34))` and
`points_earned = max 0 s = s`, and stores these values in the created
progress record, which is appended to the progress collection. -/
theorem C2_progress_record_derivation (st : Store) (p : ProgressCreate)
    (progId : String) (now : Nat)
    (hty : p.item_type = "lesson" ∨ p.item_type = "game")
    (h0 : 0 ≤ p.score) (h1 : p.score ≤ 100) :
    ∃ st', add_progress st p progId now = some (st', progId) ∧
      st'.progress = st.progress ++ [(progId, mkProgress p now)] ∧
      (mkProgress p now).stars_earned = min 3 (max 0 (p.score.fdiv 34)) ∧
      (mkProgress p now).points_earned = max 0 p.score ∧
      (mkProgress p now).points_earned = p.score := by
  have hv : validProgressCreate p = true := by
    unfold validProgressCreate
    rcases hty with h | h <;> simp [h, h0, h1]
  have hpts : (mkProgress p now).points_earned = p.score := by
    simp [mkProgress, points_of_score, max_eq_right h0]
  cases hoid : isValidOid p.child_id with
  | false =>
    refine ⟨_, add_progress_skip st p progId now hv (Or.inl hoid), rfl, rfl, rfl,
      hpts⟩
  | true =>
    cases hfind : st.children.find? (fun kv => kv.1 == p.child_id) with
    | none =>
      refine ⟨_, add_progress_skip st p progId now hv (Or.inr hfind), rfl, rfl,
        rfl, hpts⟩
    | some kv0 =>
      refine ⟨_, add_progress_update st p progId now kv0 hv hoid hfind, rfl, rfl,
        rfl, hpts⟩

/-- C2 witness. -/
theorem C2_progress_record_derivation_witness :
    ∃ st', add_progress emptyStore ⟨"x", "lesson", "l1", 70⟩ "p1" 0 =
        some (st', "p1") ∧
      st'.progress = emptyStore.progress ++
        [("p1", mkProgress ⟨"x", "lesson", "l1", 70⟩ 0)] ∧
      (mkProgress ⟨"x", "lesson", "l1", 70⟩ 0).stars_earned =
        min 3 (max 0 ((70 : Int).fdiv 34)) ∧
      (mkProgress ⟨"x", "lesson", "l1", 70⟩ 0).points_earned = max 0 70 ∧
      (mkProgress ⟨"x", "lesson", "l1", 70⟩ 0).points_earned = 70 :=
  C2_progress_record_derivation emptyStore ⟨"x", "lesson", "l1", 70⟩ "p1" 0
    (Or.inl rfl) (by decide) (by decide)

/-- C10: for every admissible score s in [0,100], the derived star count is
at most 2 — the upper bound 3 of the schema's 0-3 range is never attained,
since `100 // 34 = 2`. -/
theorem C10_stars_capped_at_two (s : Int) (h0 : 0 ≤ s) (h1 : s ≤ 100) :
    stars_of_score s ≤ 2 := by
  unfold stars_of_score
  have hd : s.fdiv 34 = s / 34 := Int.fdiv_eq_ediv s (by decide)
  have hq : s / 34 ≤ 2 := by
    have h := Int.ediv_le_ediv (c := 34) (by decide) h1
    simpa using h
  refine le_trans (min_le_right _ _) ?_
  rw [hd]
  exact max_le (by decide) hq

/-- C10 witness. -/
theorem C10_stars_capped_at_two_witness :
    (0 : Int) ≤ 100 ∧ (100 : Int) ≤ 100 ∧ stars_of_score 100 ≤ 2 :=
  ⟨by decide, by decide, C10_stars_capped_at_two 100 (by decide) (by decide)⟩

/-- Generic shape of the children collection after `add_progress`: every
entry keeps its key, and each child is either untouched or is the resolved
child with its points/level recomputed from its own old points. -/
theorem add_progress_children_rel (R : Child → Child → Prop)
    (hR : ∀ c, R c c)
    (hupd : ∀ (c : Child) (s : Int),
      R c { c with points := c.points + points_of_score s,
                   level := level_of_points (c.points + points_of_score s) })
    (st : Store) (p : ProgressCreate) (progId : String) (now : Nat)
    (st' : Store) (rid : String)
    (h : add_progress st p progId now = some (st', rid)) :
    List.Forall₂ (fun a b : String × Child => a.1 = b.1 ∧ R a.2 b.2)
      st.children st'.children := by
  cases hv : validProgressCreate p with
  | false => unfold add_progress at h; simp [hv] at h
  | true =>
    cases hoid : isValidOid p.child_id with
    | false =>
      rw [add_progress_skip st p progId now hv (Or.inl hoid)] at h
      simp only [Option.some.injEq, Prod.mk.injEq] at h
      obtain ⟨h1, h2⟩ := h
      subst h1
      exact forall₂_pair_refl R hR st.children
    | true =>
      cases hfind : st.children.find? (fun kv => kv.1 == p.child_id) with
      | none =>
        rw [add_progress_skip st p progId now hv (Or.inr hfind)] at h
        simp only [Option.some.injEq, Prod.mk.injEq] at h
        obtain ⟨h1, h2⟩ := h
        subst h1
        exact forall₂_pair_refl R hR st.children
      | some kv0 =>
        rw [add_progress_update st p progId now kv0 hv hoid hfind] at h
        simp only [Option.some.injEq, Prod.mk.injEq] at h
        obtain ⟨h1, h2⟩ := h
        subst h1
        exact forall₂_updateFirst p.child_id _ R hR st.children kv0 hfind
          (hupd kv0.2 p.score)

/-- C3: a progress submission whose child id fails to parse or does not
resolve still persists the record and returns its id, with the children
collection untouched; when the id resolves, the record is persisted and the
owning child's points/level are updated. -/
theorem C3_best_effort_update (st : Store) (p : ProgressCreate)
    (progId : String) (now : Nat) (hv : validProgressCreate p = true) :
    ((isValidOid p.child_id = false ∨
        st.children.find? (fun kv => kv.1 == p.child_id) = none) →
      add_progress st p progId now =
        some ({ st with
                progress := st.progress ++ [(progId, mkProgress p now)] },
              progId))
    ∧ (∀ kv0 : String × Child, isValidOid p.child_id = true →
        st.children.find? (fun kv => kv.1 == p.child_id) = some kv0 →
        add_progress st p progId now =
          some ({ st with
                  progress := st.progress ++ [(progId, mkProgress p now)],
                  children := updateFirst p.child_id
                    (fun c => { c with
                      points := kv0.2.points + points_of_score p.score,
                      level := level_of_points
                        (kv0.2.points + points_of_score p.score) })
                    st.children },
                progId)) :=
  ⟨fun h => add_progress_skip st p progId now hv h,
   fun kv0 hoid hfind => add_progress_update st p progId now kv0 hv hoid hfind⟩

/-- C3 witness: "zz" is not a valid ObjectId, yet the record is stored and
its id returned. -/
theorem C3_best_effort_update_witness :
    add_progress emptyStore ⟨"zz", "game", "g1", 10⟩ "p1" 0 =
      some ({ emptyStore with
              progress := emptyStore.progress ++
                [("p1", mkProgress ⟨"zz", "game", "g1", 10⟩ 0)] },
            "p1") :=
  (C3_best_effort_update emptyStore ⟨"zz", "game", "g1", 10⟩ "p1" 0
      (by decide)).1 (Or.inl (by decide))

/-- C4: after a successful update of a resolved child, the stored level is
`1 + (old points + points_earned) // 200`; and `level_of_points` is
monotone non-decreasing. -/
theorem C4_level_formula_and_monotone :
    (∀ (st : Store) (p : ProgressCreate) (progId : String) (now : Nat)
        (kv0 : String × Child),
        validProgressCreate p = true →
        isValidOid p.child_id = true →
        st.children.find? (fun kv => kv.1 == p.child_id) = some kv0 →
        ∃ st', add_progress st p progId now = some (st', progId) ∧
          st'.children.find? (fun kv => kv.1 == p.child_id) =
            some (kv0.1, { kv0.2 with
              points := kv0.2.points + points_of_score p.score,
              level := level_of_points
                (kv0.2.points + points_of_score p.score) }))
    ∧ ∀ a b : Int, a ≤ b → level_of_points a ≤ level_of_points b := by
  constructor
  · intro st p progId now kv0 hv hoid hfind
    refine ⟨_, add_progress_update st p progId now kv0 hv hoid hfind, ?_⟩
    show (updateFirst p.child_id _ st.children).find?
      (fun kv => kv.1 == p.child_id) = _
    rw [find?_updateFirst, hfind]
    rfl
  · intro a b h
    unfold level_of_points
    rw [Int.fdiv_eq_ediv a (by decide), Int.fdiv_eq_ediv b (by decide)]
    exact add_le_add_left (Int.ediv_le_ediv (by decide) h) 1

/-- A valid 24-hex-character ObjectId used in concrete instances. -/
def oidA : String := "aaaaaaaaaaaaaaaaaaaaaaaa"

def demoChild : Child :=
  { name := "K", age := 6, avatar := none, mode := "child"
    points := 0, level := 1, stars := 0, badges := [] }

def demoStore : Store := { emptyStore with children := [(oidA, demoChild)] }

/-- C4 witness. -/
theorem C4_level_formula_and_monotone_witness :
    (∃ st', add_progress demoStore ⟨oidA, "lesson", "l1", 70⟩ "p1" 0 =
        some (st', "p1") ∧
      st'.children.find? (fun kv => kv.1 == oidA) =
        some (oidA, { demoChild with
          points := demoChild.points + points_of_score 70,
          level := level_of_points (demoChild.points + points_of_score 70) }))
    ∧ level_of_points 3 ≤ level_of_points 5 :=
  ⟨C4_level_formula_and_monotone.1 demoStore ⟨oidA, "lesson", "l1", 70⟩ "p1" 0
      (oidA, demoChild) (by decide) (by decide) (by decide),
   C4_level_formula_and_monotone.2 3 5 (by decide)⟩

/-- C7: profile points never decrease — `add_progress` leaves every child's
points the same or larger, `create_child` only appends a fresh child, and
`seed_content` never touches the children collection. -/
theorem C7_points_never_decrease :
    (∀ (st : Store) (p : ProgressCreate) (progId : String) (now : Nat)
        (st' : Store) (rid : String),
        add_progress st p progId now = some (st', rid) →
        List.Forall₂ (fun a b : String × Child =>
          a.1 = b.1 ∧ a.2.points ≤ b.2.points) st.children st'.children)
    ∧ (∀ (st : Store) (p : ChildCreate) (cid : String) (st' : Store)
        (rid : String),
        create_child st p cid = some (st', rid) →
        ∃ kv : String × Child, st'.children = st.children ++ [kv])
    ∧ (∀ (st : Store) (lid1 lid2 gid mid : String),
        (seed_content st lid1 lid2 gid mid).children = st.children) := by
  refine ⟨?_, ?_, ?_⟩
  · intro st p progId now st' rid h
    exact add_progress_children_rel (fun a b => a.points ≤ b.points)
      (fun c => le_refl _)
      (fun c s => le_add_of_nonneg_right (le_max_left 0 s))
      st p progId now st' rid h
  · intro st p cid st' rid h
    cases hvc : validChildCreate p with
    | false => unfold create_child at h; simp [hvc] at h
    | true =>
      unfold create_child at h
      simp only [hvc, if_true, Option.some.injEq, Prod.mk.injEq] at h
      obtain ⟨h1, h2⟩ := h
      subst h1
      exact ⟨_, rfl⟩
  · intro st lid1 lid2 gid mid
    rfl

/-- C7 witness. -/
theorem C7_points_never_decrease_witness :
    List.Forall₂ (fun a b : String × Child =>
        a.1 = b.1 ∧ a.2.points ≤ b.2.points)
      demoStore.children
      ({ children := [(oidA, { demoChild with points := 70, level := 1 })],
         progress := [("p2", mkProgress ⟨oidA, "lesson", "l1", 70⟩ 0)],
         lessons := [], games := [], missions := [] } : Store).children :=
  C7_points_never_decrease.1 demoStore ⟨oidA, "lesson", "l1", 70⟩ "p2" 0
    _ "p2" (by decide)

/-- C9: the aggregate update of `add_progress` only ever changes a child's
points and level — name, age, avatar, mode, stars and badges of every child
are untouched. -/
theorem C9_update_frame (st : Store) (p : ProgressCreate) (progId : String)
    (now : Nat) (st' : Store) (rid : String)
    (h : add_progress st p progId now = some (st', rid)) :
    List.Forall₂ (fun a b : String × Child =>
        a.1 = b.1 ∧ a.2.name = b.2.name ∧ a.2.age = b.2.age ∧
        a.2.avatar = b.2.avatar ∧ a.2.mode = b.2.mode ∧
        a.2.stars = b.2.stars ∧ a.2.badges = b.2.badges)
      st.children st'.children :=
  add_progress_children_rel
    (fun a b => a.name = b.name ∧ a.age = b.age ∧ a.avatar = b.avatar ∧
      a.mode = b.mode ∧ a.stars = b.stars ∧ a.badges = b.badges)
    (fun c => ⟨rfl, rfl, rfl, rfl, rfl, rfl⟩)
    (fun c s => ⟨rfl, rfl, rfl, rfl, rfl, rfl⟩)
    st p progId now st' rid h

/-- C9 witness. -/
theorem C9_update_frame_witness :
    List.Forall₂ (fun a b : String × Child =>
        a.1 = b.1 ∧ a.2.name = b.2.name ∧ a.2.age = b.2.age ∧
        a.2.avatar = b.2.avatar ∧ a.2.mode = b.2.mode ∧
        a.2.stars = b.2.stars ∧ a.2.badges = b.2.badges)
      demoStore.children
      ({ children := [(oidA, { demoChild with points := 70, level := 1 })],
         progress := [("p3", mkProgress ⟨oidA, "lesson", "l1", 70⟩ 0)],
         lessons := [], games := [], missions := [] } : Store).children :=
  C9_update_frame demoStore ⟨oidA, "lesson", "l1", 70⟩ "p3" 0 _ "p3"
    (by decide)

/-! ## Branch-outcome descriptions for the recommendation claims -/

/-- Outcome of the `avg < 50` branch (main.py lines 145-148): the easy
safety lesson, else any easy lesson, else the shared fallback. -/
def safetyOutcome (st : Store) (cid : String) : Except RecError RecOutcome :=
  match safetyLookup st with
  | some it =>
    .ok (.found { child_id := cid, recommended_type := "lesson"
                  ref_id := some it.1, title := some it.2
                  reason := "Average score low; reinforce safety basics" })
  | none => fallbackMission st cid

/-- Outcome of the `avg <= 80` branch (main.py lines 149-152): a medium
lesson, else any easy lesson, else the shared fallback. -/
def mediumOutcome (st : Store) (cid : String) : Except RecError RecOutcome :=
  match mediumLookup st with
  | some it =>
    .ok (.found { child_id := cid, recommended_type := "lesson"
                  ref_id := some it.1, title := some it.2
                  reason := "Doing well; try a medium challenge" })
  | none => fallbackMission st cid

/-- Outcome of the `avg > 80` branch (main.py lines 153-156): any game,
else the shared fallback. -/
def gameOutcome (st : Store) (cid : String) : Except RecError RecOutcome :=
  match gameLookup st with
  | some it =>
    .ok (.found { child_id := cid, recommended_type := "game"
                  ref_id := some it.1, title := some it.2
                  reason := "Great scores; keep it fun with a game" })
  | none => fallbackMission st cid

/-- With a valid id and a resolved child, the endpoint is exactly the
three-way threshold dispatch over the average recent score. -/
theorem get_recommendation_branches (st : Store) (cid : String)
    (hv : isValidOid cid = true) (kv : String × Child)
    (hkv : st.children.find? (fun kv => kv.1 == cid) = some kv) :
    get_recommendation st cid =
      (if avgOf (recentScores st cid) < 50 then safetyOutcome st cid
       else if avgOf (recentScores st cid) ≤ 80 then mediumOutcome st cid
       else gameOutcome st cid) := by
  unfold get_recommendation safetyOutcome mediumOutcome gameOutcome
  simp [hv, hkv]

theorem fallbackMission_ok (st : Store) (cid : String) :
    ∃ r, fallbackMission st cid = Except.ok r := by
  unfold fallbackMission
  cases h : st.missions.head? with
  | some kv => exact ⟨_, rfl⟩
  | none => exact ⟨_, rfl⟩

/-- With a valid id and a resolved child the endpoint never raises. -/
theorem get_recommendation_ok_of_found (st : Store) (cid : String)
    (hv : isValidOid cid = true) (kv : String × Child)
    (hkv : st.children.find? (fun kv => kv.1 == cid) = some kv) :
    ∃ r, get_recommendation st cid = Except.ok r := by
  rw [get_recommendation_branches st cid hv kv hkv]
  by_cases h1 : avgOf (recentScores st cid) < 50
  · rw [if_pos h1]
    unfold safetyOutcome
    cases h : safetyLookup st with
    | some it => exact ⟨_, rfl⟩
    | none => exact fallbackMission_ok st cid
  · rw [if_neg h1]
    by_cases h2 : avgOf (recentScores st cid) ≤ 80
    · rw [if_pos h2]
      unfold mediumOutcome
      cases h : mediumLookup st with
      | some it => exact ⟨_, rfl⟩
      | none => exact fallbackMission_ok st cid
    · rw [if_neg h2]
      unfold gameOutcome
      cases h : gameLookup st with
      | some it => exact ⟨_, rfl⟩
      | none => exact fallbackMission_ok st cid

/-- C1: with a valid id and a resolved child, the decision procedure
dispatches on the average of the up-to-3 most recent scores (0 when there
are none), short-circuiting in order: `avg < 50` takes the safety branch,
`50 ≤ avg ≤ 80` the medium branch, `avg > 80` the game branch; in
particular avg = 49 is safety, avg = 50 and avg = 80 are medium, avg = 81
is game, and no records means avg = 0 and the safety branch. -/
theorem C1_recommendation_thresholds (st : Store) (cid : String)
    (hv : isValidOid cid = true)
    (hc : (st.children.find? (fun kv => kv.1 == cid)).isSome = true) :
    (avgOf (recentScores st cid) < 50 →
      get_recommendation st cid = safetyOutcome st cid)
    ∧ (50 ≤ avgOf (recentScores st cid) → avgOf (recentScores st cid) ≤ 80 →
      get_recommendation st cid = mediumOutcome st cid)
    ∧ (80 < avgOf (recentScores st cid) →
      get_recommendation st cid = gameOutcome st cid)
    ∧ (recentScores st cid = [] → avgOf (recentScores st cid) = 0 ∧
      get_recommendation st cid = safetyOutcome st cid)
    ∧ (avgOf (recentScores st cid) = 49 →
      get_recommendation st cid = safetyOutcome st cid)
    ∧ (avgOf (recentScores st cid) = 50 →
      get_recommendation st cid = mediumOutcome st cid)
    ∧ (avgOf (recentScores st cid) = 80 →
      get_recommendation st cid = mediumOutcome st cid)
    ∧ (avgOf (recentScores st cid) = 81 →
      get_recommendation st cid = gameOutcome st cid) := by
  obtain ⟨kv, hkv⟩ := Option.isSome_iff_exists.mp hc
  have base := get_recommendation_branches st cid hv kv hkv
  have hsafety : avgOf (recentScores st cid) < 50 →
      get_recommendation st cid = safetyOutcome st cid := by
    intro h
    rw [base, if_pos h]
  have hmedium : 50 ≤ avgOf (recentScores st cid) →
      avgOf (recentScores st cid) ≤ 80 →
      get_recommendation st cid = mediumOutcome st cid := by
    intro h1 h2
    rw [base, if_neg (not_lt.mpr h1), if_pos h2]
  have hgame : 80 < avgOf (recentScores st cid) →
      get_recommendation st cid = gameOutcome st cid := by
    intro h
    have h50 : ¬ avgOf (recentScores st cid) < 50 :=
      not_lt.mpr (le_of_lt (lt_trans (by norm_num) h))
    rw [base, if_neg h50, if_neg (not_le.mpr h)]
  refine ⟨hsafety, hmedium, hgame, ?_, ?_, ?_, ?_, ?_⟩
  · intro h
    have h0 : avgOf (recentScores st cid) = 0 := by
      rw [h]
      rfl
    exact ⟨h0, hsafety (by rw [h0]; norm_num)⟩
  · intro h
    exact hsafety (by rw [h]; norm_num)
  · intro h
    exact hmedium (by rw [h]) (by rw [h]; norm_num)
  · intro h
    exact hmedium (by rw [h]; norm_num) (by rw [h])
  · intro h
    exact hgame (by rw [h]; norm_num)

/-- C1 witness. -/
theorem C1_recommendation_thresholds_witness :
    get_recommendation demoStore oidA = safetyOutcome demoStore oidA ∧
    avgOf (recentScores demoStore oidA) = 0 :=
  ⟨(C1_recommendation_thresholds demoStore oidA (by decide) (by decide)).1
      (by decide),
   ((C1_recommendation_thresholds demoStore oidA (by decide)
      (by decide)).2.2.2.1 rfl).1⟩

/-- C5: the endpoint raises InvalidId exactly on malformed ids, NotFound
exactly on well-formed ids of absent children, and otherwise returns a
successful outcome. -/
theorem C5_recommendation_errors (st : Store) (cid : String) :
    (get_recommendation st cid = Except.error RecError.invalidId ↔
      isValidOid cid = false)
    ∧ (get_recommendation st cid = Except.error RecError.notFound ↔
      isValidOid cid = true ∧
        st.children.find? (fun kv => kv.1 == cid) = none)
    ∧ ∀ r : RecOutcome, get_recommendation st cid = Except.ok r →
        isValidOid cid = true ∧
        (st.children.find? (fun kv => kv.1 == cid)).isSome = true := by
  have hbad : isValidOid cid = false →
      get_recommendation st cid = Except.error RecError.invalidId := by
    intro hov
    unfold get_recommendation
    simp [hov]
  have hnone : isValidOid cid = true →
      st.children.find? (fun kv => kv.1 == cid) = none →
      get_recommendation st cid = Except.error RecError.notFound := by
    intro hov hf
    unfold get_recommendation
    simp [hov, hf]
  refine ⟨⟨?_, hbad⟩, ⟨?_, fun h => hnone h.1 h.2⟩, ?_⟩
  · intro h
    cases hov : isValidOid cid with
    | false => rfl
    | true =>
      cases hf : st.children.find? (fun kv => kv.1 == cid) with
      | none =>
        rw [hnone hov hf] at h
        simp at h
      | some kv =>
        obtain ⟨r, hr⟩ := get_recommendation_ok_of_found st cid hov kv hf
        rw [hr] at h
        simp at h
  · intro h
    cases hov : isValidOid cid with
    | false =>
      rw [hbad hov] at h
      simp at h
    | true =>
      cases hf : st.children.find? (fun kv => kv.1 == cid) with
      | none => exact ⟨rfl, rfl⟩
      | some kv =>
        obtain ⟨r, hr⟩ := get_recommendation_ok_of_found st cid hov kv hf
        rw [hr] at h
        simp at h
  · intro r h
    cases hov : isValidOid cid with
    | false =>
      rw [hbad hov] at h
      simp at h
    | true =>
      cases hf : st.children.find? (fun kv => kv.1 == cid) with
      | none =>
        rw [hnone hov hf] at h
        simp at h
      | some kv => exact ⟨rfl, rfl⟩

/-- C5 witness: a malformed id and a well-formed but unknown id. -/
theorem C5_recommendation_errors_witness :
    get_recommendation emptyStore "zz" = Except.error RecError.invalidId ∧
    get_recommendation emptyStore oidA = Except.error RecError.notFound :=
  ⟨(C5_recommendation_errors emptyStore "zz").1.mpr (by decide),
   (C5_recommendation_errors emptyStore oidA).2.1.mpr ⟨by decide, by decide⟩⟩

/-- C6: when the branch taken by the threshold dispatch finds no content,
the endpoint answers with the shared fallback: any mission if one exists,
otherwise the "no recommendation available" sentinel — never an error. -/
theorem C6_recommendation_fallback (st : Store) (cid : String)
    (hv : isValidOid cid = true)
    (hc : (st.children.find? (fun kv => kv.1 == cid)).isSome = true)
    (hmiss : (avgOf (recentScores st cid) < 50 ∧ safetyLookup st = none)
      ∨ (50 ≤ avgOf (recentScores st cid) ∧ avgOf (recentScores st cid) ≤ 80 ∧
          mediumLookup st = none)
      ∨ (80 < avgOf (recentScores st cid) ∧ gameLookup st = none)) :
    get_recommendation st cid = fallbackMission st cid
    ∧ (st.missions = [] →
        get_recommendation st cid = Except.ok RecOutcome.noneAvailable)
    ∧ ∀ (mid : String) (m : Mission) (rest : List (String × Mission)),
        st.missions = (mid, m) :: rest →
        get_recommendation st cid = Except.ok (RecOutcome.found
          { child_id := cid, recommended_type := "mission"
            ref_id := some mid, title := some m.title
            reason := "General growth mission" }) := by
  obtain ⟨kv, hkv⟩ := Option.isSome_iff_exists.mp hc
  have base := get_recommendation_branches st cid hv kv hkv
  have hfb : get_recommendation st cid = fallbackMission st cid := by
    rcases hmiss with ⟨h1, h2⟩ | ⟨h1, h2, h3⟩ | ⟨h1, h2⟩
    · rw [base, if_pos h1]
      unfold safetyOutcome
      rw [h2]
    · rw [base, if_neg (not_lt.mpr h1), if_pos h2]
      unfold mediumOutcome
      rw [h3]
    · rw [base, if_neg (not_lt.mpr (le_of_lt (lt_trans (by norm_num) h1))),
        if_neg (not_le.mpr h1)]
      unfold gameOutcome
      rw [h2]
  refine ⟨hfb, ?_, ?_⟩
  · intro hm
    rw [hfb]
    unfold fallbackMission
    simp [hm]
  · intro mid m rest hm
    rw [hfb]
    unfold fallbackMission
    simp [hm]

/-- C6 witness: a store with a child but no content at all — the safety
branch misses, there is no mission, and the sentinel is returned. -/
theorem C6_recommendation_fallback_witness :
    get_recommendation demoStore oidA = fallbackMission demoStore oidA ∧
    get_recommendation demoStore oidA = Except.ok RecOutcome.noneAvailable :=
  ⟨(C6_recommendation_fallback demoStore oidA (by decide) (by decide)
      (Or.inl ⟨by decide, rfl⟩)).1,
   (C6_recommendation_fallback demoStore oidA (by decide) (by decide)
      (Or.inl ⟨by decide, rfl⟩)).2.1 rfl⟩

/-! ## Seeding claims -/

theorem ensure_eq_of_nonempty {α : Type} (coll : List (String × α))
    (i : String) (d : α) (h : ¬ coll.length = 0) : ensure coll i d = coll := by
  unfold ensure
  simp [h]

theorem ensure_length_ne_zero {α : Type} (coll : List (String × α))
    (i : String) (d : α) : ¬ (ensure coll i d).length = 0 := by
  unfold ensure
  cases h : (coll.length == 0) with
  | true => simp
  | false =>
    simp only [Bool.false_eq_true, if_false]
    intro hc
    simp [hc] at h

/-- C8 counterexample: one run of the seed endpoint on the empty store
inserts a single lesson — the devices lesson.  The safety lesson the claim
says is inserted never appears, because the second `ensure("lesson", ...)`
sees the lesson collection already non-empty. -/
theorem C8_seed_counterexample :
    (seed_content emptyStore "a" "b" "c" "d").lessons = [("a", devicesLesson)]
    ∧ (seed_content emptyStore "a" "b" "c" "d").lessons.filter
        (fun kv => kv.2.topic == "safety") = [] :=
  ⟨rfl, rfl⟩

/-- C8 (amended): from empty content collections, one seed run inserts the
easy devices lesson, the demo game and the demo mission — the easy safety
lesson is skipped because the lesson collection is no longer empty when its
`ensure` runs — and a second run inserts nothing: seeding is idempotent. -/
theorem C8_seed_amended :
    (∀ (st : Store) (lid1 lid2 gid mid : String),
      st.lessons = [] → st.games = [] → st.missions = [] →
      (seed_content st lid1 lid2 gid mid).lessons = [(lid1, devicesLesson)] ∧
      (seed_content st lid1 lid2 gid mid).games = [(gid, demoGame)] ∧
      (seed_content st lid1 lid2 gid mid).missions = [(mid, demoMission)])
    ∧ ∀ (st : Store) (lid1 lid2 gid mid lid3 lid4 gid2 mid2 : String),
        seed_content (seed_content st lid1 lid2 gid mid) lid3 lid4 gid2 mid2 =
          seed_content st lid1 lid2 gid mid := by
  constructor
  · intro st lid1 lid2 gid mid hl hg hm
    refine ⟨?_, ?_, ?_⟩
    · show ensure (ensure st.lessons lid1 devicesLesson) lid2 safetyLesson = _
      rw [hl]
      rfl
    · show ensure st.games gid demoGame = _
      rw [hg]
      rfl
    · show ensure st.missions mid demoMission = _
      rw [hm]
      rfl
  · intro st lid1 lid2 gid mid lid3 lid4 gid2 mid2
    have hL : ¬ (seed_content st lid1 lid2 gid mid).lessons.length = 0 :=
      ensure_length_ne_zero (ensure st.lessons lid1 devicesLesson) lid2
        safetyLesson
    have hG : ¬ (seed_content st lid1 lid2 gid mid).games.length = 0 :=
      ensure_length_ne_zero st.games gid demoGame
    have hM : ¬ (seed_content st lid1 lid2 gid mid).missions.length = 0 :=
      ensure_length_ne_zero st.missions mid demoMission
    show ({ seed_content st lid1 lid2 gid mid with
            lessons := ensure (ensure
              (seed_content st lid1 lid2 gid mid).lessons lid3 devicesLesson)
              lid4 safetyLesson
            games := ensure (seed_content st lid1 lid2 gid mid).games gid2
              demoGame
            missions := ensure (seed_content st lid1 lid2 gid mid).missions
              mid2 demoMission } : Store) = _
    rw [ensure_eq_of_nonempty _ lid3 devicesLesson hL]
    rw [ensure_eq_of_nonempty _ lid4 safetyLesson hL]
    rw [ensure_eq_of_nonempty _ gid2 demoGame hG]
    rw [ensure_eq_of_nonempty _ mid2 demoMission hM]

/-- C8 witness for the amended claim. -/
theorem C8_seed_amended_witness :
    ((seed_content emptyStore "a" "b" "c" "d").lessons =
        [("a", devicesLesson)] ∧
      (seed_content emptyStore "a" "b" "c" "d").games = [("c", demoGame)] ∧
      (seed_content emptyStore "a" "b" "c" "d").missions =
        [("d", demoMission)])
    ∧ seed_content (seed_content emptyStore "a" "b" "c" "d") "e" "f" "g" "h" =
        seed_content emptyStore "a" "b" "c" "d" :=
  ⟨C8_seed_amended.1 emptyStore "a" "b" "c" "d" rfl rfl rfl,
   C8_seed_amended.2 emptyStore "a" "b" "c" "d" "e" "f" "g" "h"⟩
